import Mathlib

/-!
Shallow embedding of the feedback_server backend (Hono routes over a postgres
store, schema in schema.sql): the relational data model, the tag-normalisation
workflow, the entity+tags aggregation queries, vote-counter mutation, group
membership mutation, and the validation middleware chain, together with
theorems settling the specification claims C1 - C10.
-/

/-- Row of the `tags` table: id SERIAL PRIMARY KEY, name TEXT UNIQUE,
upvotes INTEGER DEFAULT 0, downvotes INTEGER DEFAULT 0. -/
structure TagRow where
  id : Nat
  name : String
  upvotes : Int
  downvotes : Int
deriving DecidableEq

/-- Row of the `users` table: id TEXT PRIMARY KEY, name, email, role, image_url. -/
structure UserRow where
  id : String
  name : String
  email : String
  role : String
  image_url : String
deriving DecidableEq

/-- Row of the `ideas` table (created_at omitted: no claim touches it). -/
structure IdeaRow where
  id : Nat
  title : String
  content : String
  user_id : String
  files_url : List String
  access : String
  upvotes : Int
  downvotes : Int
deriving DecidableEq

/-- Row of the `user_groups` table; `user_id` is the raw member array. -/
structure GroupRow where
  id : Nat
  title : String
  description : String
  user_id : List String
  likes : Int
deriving DecidableEq

/-- Row of the `feedbacks` table (created_at omitted). -/
structure FeedbackRow where
  id : Nat
  idea_id : Nat
  user_id : String
  content : String
  files_url : List String
  feedback_links : List Nat
  user_tag : Option String
  upvotes : Int
  downvotes : Int
deriving DecidableEq

/-- The relational store: one list per table, junction tables as pair lists,
plus the SERIAL sequences that assign fresh ids. -/
structure DB where
  users : List UserRow
  tags : List TagRow
  users_pinned_tags : List (String × Nat)
  user_groups : List GroupRow
  ideas : List IdeaRow
  ideas_tags : List (Nat × Nat)
  feedbacks : List FeedbackRow
  ideas_feedbacks : List (Nat × Nat)
  tagSeq : Nat
  ideaSeq : Nat
deriving DecidableEq

/-- The object store (Tigris S3 bucket): keys mapped to stored contents. -/
structure S3State where
  objects : List (String × String)
deriving DecidableEq

/-- Full external state a request handler can touch: entity store and object
store. -/
structure ServerState where
  db : DB
  s3 : S3State
deriving DecidableEq

/-- Semantics of `UPDATE t SET ... WHERE p`: rewrite every matching row in
place, leave the others untouched. -/
def updateWhere (p : α → Bool) (g : α → α) (l : List α) : List α :=
  l.map (fun x => if p x then g x else x)

/-- The joined rows a single idea contributes to
`ideas i LEFT JOIN ideas_tags it ON i.id = it.idea_id LEFT JOIN tags t ON it.tag_id = t.id`:
with no junction match the idea still yields one row whose tag side is NULL;
each junction row carries the (unique, `tags.id` is the primary key) matching
tag, or NULL if dangling. -/
def ideaJoinTags (db : DB) (i : IdeaRow) : List (Option TagRow) :=
  let js := db.ideas_tags.filter (fun p => p.1 = i.id)
  if js.isEmpty then [none]
  else js.map (fun p => db.tags.find? (fun t => t.id = p.2))

/-- The joined rows a single user contributes to
`users u LEFT JOIN users_pinned_tags upt ON u.id = upt.user_id LEFT JOIN tags t ON upt.tag_id = t.id`. -/
def userJoinTags (db : DB) (u : UserRow) : List (Option TagRow) :=
  let js := db.users_pinned_tags.filter (fun p => p.1 = u.id)
  if js.isEmpty then [none]
  else js.map (fun p => db.tags.find? (fun t => t.id = p.2))

/-- `ARRAY_AGG(t.name)` over one group: SQL NULL (`none`) on an empty group,
otherwise the collected values INCLUDING the NULLs the left join produced
(Postgres array_agg does not skip NULL inputs). -/
def arrayAgg (l : List (Option String)) : Option (List (Option String)) :=
  if l.isEmpty then none else some l

/-- `COALESCE(agg, ARRAY[]::VARCHAR[])`: the empty array only when the
aggregate itself is SQL NULL. -/
def coalesceArr (x : Option (List (Option String))) : List (Option String) :=
  x.getD []

/-- `WHERE t.name = filter` on one joined row: SQL comparison with a NULL
tag side is not true, so NULL rows are dropped when the filter is present. -/
def rowPassesFilter (filter : Option String) (t : Option TagRow) : Bool :=
  match filter with
  | none => true
  | some f =>
    match t with
    | none => false
    | some tg => tg.name = f

/-- JS `a.startsWith(p)`, on the character sequences of the strings. -/
def strStartsWith (s p : String) : Bool :=
  p.data.isPrefixOf s.data

/-- The access parameter activates filtering exactly when it starts with
`private:` or `group:` (GET /ideas handler). -/
def accessShape (a : String) : Bool :=
  strStartsWith a "private:" || strStartsWith a "group:"

/-- `(i.access = access OR i.access = 'public')`, applied only when the
access parameter has the private:/group: shape; otherwise no condition. -/
def rowPassesAccess (access : Option String) (i : IdeaRow) : Bool :=
  match access with
  | none => true
  | some a => if accessShape a then (i.access = a || i.access = "public") else true

/-- One output row of the ideas listing / get-by-id queries; `tags` is the
aggregated array, whose entries can be SQL NULL. -/
structure IdeaView where
  id : Nat
  title : String
  content : String
  user_id : String
  tags : List (Option String)
  files_url : List String
  access : String
  upvotes : Int
  downvotes : Int
deriving DecidableEq

/-- Builds the SELECT output row for one idea group from its surviving joined
rows. -/
def mkIdeaView (i : IdeaRow) (agg : List (Option String)) : IdeaView :=
  { id := i.id, title := i.title, content := i.content, user_id := i.user_id,
    tags := coalesceArr (arrayAgg agg),
    files_url := i.files_url, access := i.access,
    upvotes := i.upvotes, downvotes := i.downvotes }

/-- The joined rows of one idea that survive the WHERE clause built by
GET /ideas (tag filter and access filter). -/
def survivingRows (db : DB) (filter access : Option String) (i : IdeaRow) : List (Option TagRow) :=
  (ideaJoinTags db i).filter (fun t => rowPassesFilter filter t && rowPassesAccess access i)

/-- GET /ideas: left join, WHERE from the optional tag filter and access
filter, GROUP BY every scalar idea column, ARRAY_AGG of the tag names.
A group (an output row) exists only where some joined row survived the
WHERE clause. Ordering (sort_by) does not change the row set and is
modelled separately (see the sort-fragment definitions). -/
def getIdeasRows (db : DB) (filter access : Option String) : List IdeaView :=
  db.ideas.filterMap (fun i =>
    let rows := survivingRows db filter access i
    if rows.isEmpty then none
    else some (mkIdeaView i (rows.map (fun t => t.map (fun tg => tg.name)))))

/-- One output row of the users aggregation queries. -/
structure UserAggView where
  id : String
  name : String
  email : String
  role : String
  image_url : String
  pinned_tags : List (Option String)
deriving DecidableEq

/-- Builds the aggregated view of one user (GET /users, GET /users/:id before
the transform). -/
def userAggOf (db : DB) (u : UserRow) : UserAggView :=
  { id := u.id, name := u.name, email := u.email, role := u.role,
    image_url := u.image_url,
    pinned_tags := coalesceArr (arrayAgg ((userJoinTags db u).map (fun t => t.map (fun tg => tg.name)))) }

/-- GET /users: every user aggregated with its pinned tag names, no filter. -/
def getUsersRows (db : DB) : List UserAggView :=
  db.users.map (userAggOf db)

/-- Concrete store for the zero-tag aggregation check: one user and one idea,
no tag rows and no junction rows. -/
def dbNoTags : DB :=
  { users := [{ id := "u1", name := "n", email := "e", role := "r", image_url := "i" }],
    tags := [],
    users_pinned_tags := [],
    user_groups := [],
    ideas := [{ id := 1, title := "T", content := "C", user_id := "u1",
                files_url := [], access := "public", upvotes := 0, downvotes := 0 }],
    ideas_tags := [],
    feedbacks := [],
    ideas_feedbacks := [],
    tagSeq := 1,
    ideaSeq := 2 }

/-- One step of the bulk tag upsert
`INSERT INTO tags ... ON CONFLICT (name) DO NOTHING` (POST /ideas): a
candidate name already present leaves the table untouched; a new name gets a
fresh SERIAL id and zero counters. -/
def insertTagIgnore (db : DB) (nm : String) : DB :=
  if db.tags.any (fun t => t.name = nm) then db
  else { db with
         tags := db.tags ++ [{ id := db.tagSeq, name := nm, upvotes := 0, downvotes := 0 }],
         tagSeq := db.tagSeq + 1 }

/-- The whole bulk insert-or-ignore over the candidate names, in order. -/
def insertTagsIgnore (db : DB) (names : List String) : DB :=
  names.foldl insertTagIgnore db

/-- `SELECT id FROM tags WHERE name IN (names)` in table order. -/
def selectTagIdsByNames (db : DB) (names : List String) : List Nat :=
  (db.tags.filter (fun t => names.contains t.name)).map (fun t => t.id)

/-- POST /user/:user_id/:tag (routes/users.ts): one statement whose CTE does
`INSERT INTO tags (name) VALUES (tag) ON CONFLICT DO NOTHING RETURNING id`,
then inserts the junction row guarded by
`WHERE NOT EXISTS (SELECT 1 FROM users_pinned_tags WHERE ...)` and ends in
`RETURNING *`. The handler throws HTTPException 404 when zero rows come back
(so when the guard blocked the insert), 200 on one row; a foreign-key
violation (user absent) aborts the whole statement, surfacing as 500 with
nothing persisted. The snapshot the inner subqueries read does not see the
CTE insert, so a freshly created tag always passes the NOT EXISTS guard and
its id is taken from the CTE RETURNING via COALESCE. -/
def postUserTagRoute (db : DB) (user_id tag : String) : Nat × DB :=
  match db.tags.find? (fun t => t.name = tag) with
  | some t =>
    if db.users_pinned_tags.any (fun q => q.1 = user_id && q.2 = t.id) then
      (404, db)
    else if db.users.any (fun u => u.id = user_id) then
      (200, { db with users_pinned_tags := db.users_pinned_tags ++ [(user_id, t.id)] })
    else (500, db)
  | none =>
    if db.users.any (fun u => u.id = user_id) then
      (200, { db with
              tags := db.tags ++ [{ id := db.tagSeq, name := tag, upvotes := 0, downvotes := 0 }],
              tagSeq := db.tagSeq + 1,
              users_pinned_tags := db.users_pinned_tags ++ [(user_id, db.tagSeq)] })
    else (500, db)

/-- POST /ideas/:id/:tag (routes/ideas.ts):
`INSERT INTO ideas_tags VALUES (id, (SELECT id FROM tags WHERE name = tag))`
with no ON CONFLICT clause. A missing tag makes the subquery NULL and the
primary-key NOT NULL constraint rejects the row; an already linked pair hits
the composite primary key; a missing idea hits the foreign key. Each of
these store errors surfaces as 500 through the global error handler; only a
genuinely new pair for an existing idea and tag succeeds with 200. -/
def postIdeaTagRoute (db : DB) (id : Nat) (tag : String) : Nat × DB :=
  match db.tags.find? (fun t => t.name = tag) with
  | none => (500, db)
  | some t =>
    if db.ideas_tags.any (fun q => q.1 = id && q.2 = t.id) then (500, db)
    else if db.ideas.any (fun i => i.id = id) then
      (200, { db with ideas_tags := db.ideas_tags ++ [(id, t.id)] })
    else (500, db)

/-- POST /ideas/up/:id: `UPDATE ideas SET upvotes = upvotes + 1 WHERE id = ...
RETURNING *`; the handler serialises rows[0] without checking emptiness, so
the status is 200 whether or not the idea exists. -/
def postIdeaUp (db : DB) (id : Nat) : Nat × DB :=
  (200, { db with ideas :=
            (updateWhere (fun r => r.id = id)
              (fun r => { r with upvotes := r.upvotes + 1 }) db.ideas) })

/-- POST /ideas/down/:id: downvotes incremented, 200 unconditionally. -/
def postIdeaDown (db : DB) (id : Nat) : Nat × DB :=
  (200, { db with ideas := (updateWhere (fun r => r.id = id)
            (fun r => { r with downvotes := r.downvotes + 1 }) db.ideas) })

/-- DELETE /ideas/up/:id: upvotes decremented, no floor, 200 unconditionally. -/
def deleteIdeaUp (db : DB) (id : Nat) : Nat × DB :=
  (200, { db with ideas := (updateWhere (fun r => r.id = id)
            (fun r => { r with upvotes := r.upvotes - 1 }) db.ideas) })

/-- DELETE /ideas/down/:id: downvotes decremented, no floor, 200 unconditionally. -/
def deleteIdeaDown (db : DB) (id : Nat) : Nat × DB :=
  (200, { db with ideas := (updateWhere (fun r => r.id = id)
            (fun r => { r with downvotes := r.downvotes - 1 }) db.ideas) })

/-- POST /tags/up/:name (routes/tags.ts): the update runs, and the handler
throws 404 when RETURNING produced no row, i.e. when no tag bears the name. -/
def postTagUp (db : DB) (nm : String) : Nat × DB :=
  (if db.tags.any (fun t => t.name = nm) then 200 else 404,
   { db with tags := (updateWhere (fun t => t.name = nm)
       (fun t => { t with upvotes := t.upvotes + 1 }) db.tags) })

/-- DELETE /tags/up/:name: upvotes decremented with the same 404 check. -/
def deleteTagUp (db : DB) (nm : String) : Nat × DB :=
  (if db.tags.any (fun t => t.name = nm) then 200 else 404,
   { db with tags := (updateWhere (fun t => t.name = nm)
       (fun t => { t with upvotes := t.upvotes - 1 }) db.tags) })

/-- GET /tags/:name: 404 exactly when no row matches. -/
def getTagByName (db : DB) (nm : String) : Nat × Option TagRow :=
  match db.tags.filter (fun t => t.name = nm) with
  | [] => (404, none)
  | t :: _ => (200, some t)

/-- POST /feedbacks/up/:id (routes/feedbacks.ts):
`UPDATE feedbacks SET upvotes = upvotes + 1 WHERE id = ...` with no
RETURNING inspection; the handler answers 200 even when the id matches
nothing. -/
def postFeedbackUp (db : DB) (id : Nat) : Nat × DB :=
  (200, { db with feedbacks := (updateWhere (fun f => f.id = id)
            (fun f => { f with upvotes := f.upvotes + 1 }) db.feedbacks) })

/-- GET /ideas/:id: the aggregation query restricted to one id; the handler
returns c.json(rows[0]) without a row-count check, so the status is 200 even
when the idea is absent (the body is then the serialisation of undefined). -/
def getIdeaById (db : DB) (id : Nat) : Nat × Option IdeaView :=
  (200, ((db.ideas.filter (fun i => i.id = id)).map (fun i =>
    mkIdeaView i ((ideaJoinTags db i).map (fun t => t.map (fun tg => tg.name))))).head?)

/-- POST /groups/:id/:user_id (routes/groups.ts):
`UPDATE user_groups SET user_id = array_append(user_id, uid) WHERE id = ...`,
unconditional append, 200 with no row-count check. -/
def postGroupUser (db : DB) (id : Nat) (uid : String) : Nat × DB :=
  (200, { db with user_groups := (updateWhere (fun g => g.id = id)
            (fun g => { g with user_id := g.user_id ++ [uid] }) db.user_groups) })

/-- DELETE /groups/:id/:user_id:
`UPDATE user_groups SET user_id = array_remove(user_id, uid) WHERE id = ...`;
array_remove drops every element equal to uid. -/
def deleteGroupUser (db : DB) (id : Nat) (uid : String) : Nat × DB :=
  (200, { db with user_groups := (updateWhere (fun g => g.id = id)
            (fun g => { g with user_id := g.user_id.filter (fun x => ¬ x = uid) }) db.user_groups) })

/-- Piece of a query built by the postgres client's tagged template: either
literal SQL text or a value bound as a parameter. -/
inductive SqlPiece where
  | raw (s : String)
  | param (v : String)
deriving DecidableEq

/-- zod validation of the GET /ideas query object
`z.object({ sort_by, filter, access })` where all three schemas are
`z.string().optional()`: an absent parameter or any string value passes. -/
def ideasQueryValid (sort_by filter access : Option String) : Bool :=
  match sort_by, filter, access with
  | _, _, _ => true

/-- The GET /ideas sort fragment: `sort_by ? sql\x60ORDER BY i.${sort_by}\x60 :
sql\x60\x60`. The interpolated value is handed to the postgres client, which binds
it as a parameter; it is not spliced into the SQL text. -/
def ideasSortBySql : Option String → List SqlPiece
  | none => []
  | some s => [SqlPiece.raw "ORDER BY i.", SqlPiece.param s]

/-- The GET /groups sort string: a plain JS template
`sort_by ? \x60ORDER BY ${sort_by}\x60 : ""`. -/
def groupsSortByStr : Option String → String
  | none => ""
  | some s => "ORDER BY " ++ s

/-- The GET /groups query `sql\x60SELECT * FROM user_groups ${sort_by_sql}\x60`:
the plain string fragment is interpolated as one bound parameter. -/
def groupsQuerySql (sort_by : Option String) : List SqlPiece :=
  [SqlPiece.raw "SELECT * FROM user_groups ", SqlPiece.param (groupsSortByStr sort_by)]

/-- The columns of the `ideas` table (schema.sql): the widest fixed allow-list
of sortable columns the spec's words "a fixed allow-list of sortable columns"
could denote for the ideas listing. -/
def ideasTableColumns : List String :=
  ["id", "title", "content", "user_id", "files_url", "access",
   "upvotes", "downvotes", "created_at"]

/-- JSON body of POST /ideas as it reaches the zod validator: a field is
`none` when the key is absent. -/
structure IdeasReqBody where
  id : Option Int
  title : Option String
  content : Option String
  user_id : Option String
  files_url : Option (List String)
  access : Option String
  upvotes : Option Int
  downvotes : Option Int
  tags : Option (List String)
deriving DecidableEq

/-- zod `ideasSchemaWithTags`: every field except `id` is required. -/
def ideasBodyValid (b : IdeasReqBody) : Bool :=
  b.title.isSome && b.content.isSome && b.user_id.isSome && b.files_url.isSome &&
    b.access.isSome && b.upvotes.isSome && b.downvotes.isSome && b.tags.isSome

/-- JSON body of POST /feedbacks as it reaches the zod validator. -/
structure FeedbackReqBody where
  id : Option Int
  idea_id : Option Nat
  user_id : Option String
  content : Option String
  files_url : Option (List String)
  feedback_links : Option (List Nat)
  user_tag : Option (Option String)
  upvotes : Option Int
  downvotes : Option Int
deriving DecidableEq

/-- zod `feedbackSchema`: every field is required (`user_tag` must be present,
though its value may be null). -/
def feedbackBodyValid (b : FeedbackReqBody) : Bool :=
  b.id.isSome && b.idea_id.isSome && b.user_id.isSome && b.content.isSome &&
    b.files_url.isSome && b.feedback_links.isSome && b.user_tag.isSome &&
    b.upvotes.isSome && b.downvotes.isSome

/-- Hono's middleware chain for a validated route: the zValidator middleware
runs first and, when the payload fails the schema, responds 400 without ever
invoking the handler; otherwise the handler runs on the untouched state. -/
def runRoute (valid : Bool) (handler : ServerState → Nat × ServerState)
    (st : ServerState) : Nat × ServerState :=
  if valid then handler st else (400, st)

/-- Handler body of POST /ideas (after validation): (1) bulk insert-or-ignore
of the tag names, (2) resolve the names to ids, (3) insert the idea row
RETURNING it (a user_id foreign-key violation aborts here with 500, the tag
rows of step 1 persisting since the statements share no transaction),
(4) insert the junction rows for the fresh idea id. -/
def postIdeasHandler (b : IdeasReqBody) (st : ServerState) : Nat × ServerState :=
  let tags := b.tags.getD []
  let user_id := b.user_id.getD ""
  let db1 := insertTagsIgnore st.db tags
  let ids := selectTagIdsByNames db1 tags
  if db1.users.any (fun u => u.id = user_id) then
    let row : IdeaRow :=
      { id := db1.ideaSeq, title := b.title.getD "", content := b.content.getD "",
        user_id := user_id, files_url := b.files_url.getD [],
        access := b.access.getD "", upvotes := 0, downvotes := 0 }
    let db2 := { db1 with ideas := db1.ideas ++ [row], ideaSeq := db1.ideaSeq + 1 }
    (200, { st with db :=
      { db2 with ideas_tags := db2.ideas_tags ++ ids.map (fun tid => (row.id, tid)) } })
  else (500, { st with db := db1 })

/-- POST /ideas: the zValidator("json", ideasSchemaWithTags) middleware in
front of the handler. -/
def postIdeasRoute (b : IdeasReqBody) (st : ServerState) : Nat × ServerState :=
  runRoute (ideasBodyValid b) (postIdeasHandler b) st

/-- Handler body of POST /feedbacks (after validation): insert the feedback
row RETURNING it (foreign-key violations abort with 500), then the
ideas_feedbacks junction row. -/
def postFeedbacksHandler (b : FeedbackReqBody) (st : ServerState) : Nat × ServerState :=
  let idea_id := b.idea_id.getD 0
  let user_id := b.user_id.getD ""
  if st.db.ideas.any (fun i => i.id = idea_id) && st.db.users.any (fun u => u.id = user_id) then
    let fid := st.db.feedbacks.length + 1
    let row : FeedbackRow :=
      { id := fid, idea_id := idea_id, user_id := user_id,
        content := b.content.getD "", files_url := b.files_url.getD [],
        feedback_links := b.feedback_links.getD [], user_tag := b.user_tag.getD none,
        upvotes := b.upvotes.getD 0, downvotes := b.downvotes.getD 0 }
    (200, { st with db := { st.db with
      feedbacks := st.db.feedbacks ++ [row],
      ideas_feedbacks := st.db.ideas_feedbacks ++ [(idea_id, fid)] } })
  else (500, st)

/-- POST /feedbacks: the zValidator("json", feedbackSchema) middleware in
front of the handler. -/
def postFeedbacksRoute (b : FeedbackReqBody) (st : ServerState) : Nat × ServerState :=
  runRoute (feedbackBodyValid b) (postFeedbacksHandler b) st

/-- JS property keys: array index keys, the `length` key, and named keys. -/
inductive JsKey where
  | index (i : Nat)
  | length
  | named (s : String)
deriving DecidableEq

/-- JS values reachable in the GET /users/:id response transform; arrays here
only ever hold tag-name entries (a string or null each). -/
inductive JsVal where
  | vstr (s : String)
  | vnull
  | vnum (n : Nat)
  | varr (l : List (Option String))
  | vundef
deriving DecidableEq

/-- A SQL text value crossing into JS: NULL becomes JS null. -/
def jsOfOptStr : Option String → JsVal
  | some s => JsVal.vstr s
  | none => JsVal.vnull

/-- The own properties of the JS Array holding the aggregated tag names
(`Object(a)` applied to an array is the array itself): its numeric index
keys and `length`. -/
def jsArrayProps (l : List (Option String)) : List (JsKey × JsVal) :=
  (l.enum.map (fun p => (JsKey.index p.1, jsOfOptStr p.2))) ++
    [(JsKey.length, JsVal.vnum l.length)]

/-- JS member access: the property's value when present, undefined otherwise. -/
def jsGetProp (props : List (JsKey × JsVal)) (k : JsKey) : JsVal :=
  match props.find? (fun p => p.1 = k) with
  | some p => p.2
  | none => JsVal.vundef

/-- The nullish-coalescing operator `x ?? y`. -/
def jsNullish (x y : JsVal) : JsVal :=
  match x with
  | JsVal.vundef => y
  | JsVal.vnull => y
  | v => v

/-- The GET /users/:id response user: the spread of the aggregated row with
`pinned_tags` replaced by the transform's result. -/
structure TransformedUser where
  id : String
  name : String
  email : String
  role : String
  image_url : String
  pinned_tags : JsVal
deriving DecidableEq

/-- The transform `{ ...rows[0], pinned_tags: Object(rows[0]?.pinned_tags).items ?? [] }`. -/
def transformUser (r : UserAggView) : TransformedUser :=
  { id := r.id, name := r.name, email := r.email, role := r.role,
    image_url := r.image_url,
    pinned_tags := jsNullish (jsGetProp (jsArrayProps r.pinned_tags) (JsKey.named "items"))
      (JsVal.varr []) }

/-- GET /users/:id: the user aggregation query restricted to one id; 404 when
no row comes back, otherwise 200 with the transformed first row. -/
def getUserByIdRoute (db : DB) (uid : String) : Nat × Option TransformedUser :=
  match (db.users.filter (fun u => u.id = uid)).map (userAggOf db) with
  | [] => (404, none)
  | r :: _ => (200, some (transformUser r))

/-- Claim C2, evaluated at the failing input: for an idea with zero tags and a
user with zero pinned tags, the aggregation queries return the tags field as
a one-element list holding SQL NULL, not the empty list: the left join
contributes one all-NULL row, ARRAY_AGG collects that NULL into `[NULL]`,
and COALESCE never applies because the aggregate is not itself NULL. -/
theorem c2_zero_tags_yields_null_placeholder :
    (getIdeasRows dbNoTags none none).map (fun v => v.tags) = [[none]]
    ∧ (getUsersRows dbNoTags).map (fun v => v.pinned_tags) = [[none]]
    ∧ ([[(none : Option String)]] : List (List (Option String))) ≠ [[]] := by
  refine ⟨by decide, by decide, by decide⟩

/-- An UPDATE whose SET clause preserves the WHERE predicate rewrites the
first matching row to its image: looking the row up again finds the image. -/
theorem find?_updateWhere (p : α → Bool) (g : α → α) (l : List α)
    (hg : ∀ x, p x = true → p (g x) = true) :
    (updateWhere p g l).find? p = (l.find? p).map g := by
  induction l with
  | nil => rfl
  | cons x xs ih =>
    by_cases h : p x = true
    · simp only [updateWhere, List.map_cons, if_pos h]
      rw [List.find?_cons_of_pos _ (hg x h), List.find?_cons_of_pos _ h]
      rfl
    · simp only [updateWhere, List.map_cons, if_neg h]
      rw [List.find?_cons_of_neg _ h, List.find?_cons_of_neg _ h]
      exact ih

/-- Rows the WHERE clause does not match survive an UPDATE untouched. -/
theorem mem_updateWhere_self (p : α → Bool) (g : α → α) {l : List α} {r : α}
    (hr : r ∈ l) (hp : p r = false) : r ∈ updateWhere p g l := by
  have h1 := List.mem_map_of_mem (fun x => if p x then g x else x) hr
  simpa [updateWhere, hp] using h1

/-- Claim C6: each vote endpoint adjusts exactly one counter of the targeted
entity by exactly one per call with no floor or ceiling — for ideas
(POST/DELETE /ideas/up|down/:id) and tags (POST/DELETE /tags/up/:name) — and
untouched rows survive unchanged; in particular an upvote then a downvote on
a fresh idea leaves upvotes = 1 and downvotes = 1, and removing an upvote
from a never-voted idea drives upvotes to -1. -/
theorem c6_vote_counters :
    (∀ (db : DB) (id : Nat) (i : IdeaRow),
        db.ideas.find? (fun r => r.id = id) = some i →
        ((postIdeaUp db id).2.ideas.find? (fun r => r.id = id)
            = some { i with upvotes := i.upvotes + 1 }
          ∧ (postIdeaDown db id).2.ideas.find? (fun r => r.id = id)
            = some { i with downvotes := i.downvotes + 1 }
          ∧ (deleteIdeaUp db id).2.ideas.find? (fun r => r.id = id)
            = some { i with upvotes := i.upvotes - 1 }
          ∧ (deleteIdeaDown db id).2.ideas.find? (fun r => r.id = id)
            = some { i with downvotes := i.downvotes - 1 }
          ∧ ∀ r ∈ db.ideas, (r.id = id) = false → r ∈ (postIdeaUp db id).2.ideas))
    ∧ (∀ (db : DB) (nm : String) (t : TagRow),
        db.tags.find? (fun r => r.name = nm) = some t →
        ((postTagUp db nm).2.tags.find? (fun r => r.name = nm)
            = some { t with upvotes := t.upvotes + 1 }
          ∧ (deleteTagUp db nm).2.tags.find? (fun r => r.name = nm)
            = some { t with upvotes := t.upvotes - 1 }))
    ∧ (∀ (db : DB) (id : Nat) (i : IdeaRow),
        db.ideas.find? (fun r => r.id = id) = some i →
        i.upvotes = 0 → i.downvotes = 0 →
        ((postIdeaDown (postIdeaUp db id).2 id).2.ideas.find? (fun r => r.id = id)
            = some { i with upvotes := 1, downvotes := 1 }
          ∧ (deleteIdeaUp db id).2.ideas.find? (fun r => r.id = id)
            = some { i with upvotes := -1 })) := by
  refine ⟨?_, ?_, ?_⟩
  · intro db id i h
    refine ⟨?_, ?_, ?_, ?_, ?_⟩
    · rw [show (postIdeaUp db id).2.ideas = updateWhere (fun r : IdeaRow => r.id = id)
        (fun r => { r with upvotes := r.upvotes + 1 }) db.ideas from rfl,
        find?_updateWhere _ _ _ (fun x hx => by simpa using hx), h]
      rfl
    · rw [show (postIdeaDown db id).2.ideas = updateWhere (fun r : IdeaRow => r.id = id)
        (fun r => { r with downvotes := r.downvotes + 1 }) db.ideas from rfl,
        find?_updateWhere _ _ _ (fun x hx => by simpa using hx), h]
      rfl
    · rw [show (deleteIdeaUp db id).2.ideas = updateWhere (fun r : IdeaRow => r.id = id)
        (fun r => { r with upvotes := r.upvotes - 1 }) db.ideas from rfl,
        find?_updateWhere _ _ _ (fun x hx => by simpa using hx), h]
      rfl
    · rw [show (deleteIdeaDown db id).2.ideas = updateWhere (fun r : IdeaRow => r.id = id)
        (fun r => { r with downvotes := r.downvotes - 1 }) db.ideas from rfl,
        find?_updateWhere _ _ _ (fun x hx => by simpa using hx), h]
      rfl
    · intro r hr hne
      exact mem_updateWhere_self _ _ hr (by simpa using hne)
  · intro db nm t h
    constructor
    · rw [show (postTagUp db nm).2.tags = updateWhere (fun r : TagRow => r.name = nm)
        (fun r => { r with upvotes := r.upvotes + 1 }) db.tags from rfl,
        find?_updateWhere _ _ _ (fun x hx => by simpa using hx), h]
      rfl
    · rw [show (deleteTagUp db nm).2.tags = updateWhere (fun r : TagRow => r.name = nm)
        (fun r => { r with upvotes := r.upvotes - 1 }) db.tags from rfl,
        find?_updateWhere _ _ _ (fun x hx => by simpa using hx), h]
      rfl
  · intro db id i h hu hd
    constructor
    · rw [show (postIdeaDown (postIdeaUp db id).2 id).2.ideas
          = updateWhere (fun r : IdeaRow => r.id = id)
              (fun r => { r with downvotes := r.downvotes + 1 })
              (updateWhere (fun r : IdeaRow => r.id = id)
                (fun r => { r with upvotes := r.upvotes + 1 }) db.ideas) from rfl,
        find?_updateWhere _ _ _ (fun x hx => by simpa using hx),
        find?_updateWhere _ _ _ (fun x hx => by simpa using hx), h]
      simp [hu, hd]
    · rw [show (deleteIdeaUp db id).2.ideas = updateWhere (fun r : IdeaRow => r.id = id)
        (fun r => { r with upvotes := r.upvotes - 1 }) db.ideas from rfl,
        find?_updateWhere _ _ _ (fun x hx => by simpa using hx), h]
      simp [hu]

/-- The single idea row of dbNoTags, as the vote scenario starts from it. -/
def ideaV : IdeaRow :=
  { id := 1, title := "T", content := "C", user_id := "u1",
    files_url := [], access := "public", upvotes := 0, downvotes := 0 }

/-- Witness for C6: the up-then-down and the remove-on-fresh scenarios
evaluated on the concrete store dbNoTags. -/
theorem c6_witness :
    ((postIdeaDown (postIdeaUp dbNoTags 1).2 1).2.ideas.find? (fun r => r.id = 1)
        = some { ideaV with upvotes := 1, downvotes := 1 })
    ∧ ((deleteIdeaUp dbNoTags 1).2.ideas.find? (fun r => r.id = 1)
        = some { ideaV with upvotes := -1 }) :=
  c6_vote_counters.2.2 dbNoTags 1 ideaV (by decide) rfl rfl

/-- Claim C10: POST /groups/:id/:user_id appends the user id to the member
array unconditionally, so adding the same user twice stores two occurrences,
while DELETE /groups/:id/:user_id removes every occurrence in one call. -/
theorem c10_group_membership :
    ∀ (db : DB) (gid : Nat) (uid : String) (g : GroupRow),
      db.user_groups.find? (fun r => r.id = gid) = some g →
      ((postGroupUser (postGroupUser db gid uid).2 gid uid).2.user_groups.find?
          (fun r => r.id = gid) = some { g with user_id := g.user_id ++ [uid, uid] }
        ∧ (g.user_id ++ [uid, uid]).count uid = g.user_id.count uid + 2
        ∧ (deleteGroupUser db gid uid).2.user_groups.find? (fun r => r.id = gid)
            = some { g with user_id := g.user_id.filter (fun x => ¬ x = uid) }
        ∧ (g.user_id.filter (fun x => ¬ x = uid)).count uid = 0) := by
  intro db gid uid g h
  refine ⟨?_, ?_, ?_, ?_⟩
  · rw [show (postGroupUser (postGroupUser db gid uid).2 gid uid).2.user_groups
        = updateWhere (fun r : GroupRow => r.id = gid)
            (fun r => { r with user_id := r.user_id ++ [uid] })
            (updateWhere (fun r : GroupRow => r.id = gid)
              (fun r => { r with user_id := r.user_id ++ [uid] }) db.user_groups) from rfl,
      find?_updateWhere _ _ _ (fun x hx => by simpa using hx),
      find?_updateWhere _ _ _ (fun x hx => by simpa using hx), h]
    simp
  · simp [List.count_append]
  · rw [show (deleteGroupUser db gid uid).2.user_groups
        = updateWhere (fun r : GroupRow => r.id = gid)
            (fun r => { r with user_id := r.user_id.filter (fun x => ¬ x = uid) })
            db.user_groups from rfl,
      find?_updateWhere _ _ _ (fun x hx => by simpa using hx), h]
    rfl
  · rw [List.count_eq_zero]
    intro hmem
    have h2 := (List.mem_filter.1 hmem).2
    simp at h2

/-- A concrete group table: one group whose member array already holds u1. -/
def groupG : GroupRow :=
  { id := 1, title := "G", description := "D", user_id := ["u1"], likes := 0 }

/-- A store holding only groupG. -/
def dbGroups : DB :=
  { users := [], tags := [], users_pinned_tags := [], user_groups := [groupG],
    ideas := [], ideas_tags := [], feedbacks := [], ideas_feedbacks := [],
    tagSeq := 1, ideaSeq := 1 }

/-- Witness for C10: the double add and the total removal on dbGroups. -/
theorem c10_witness :
    ((postGroupUser (postGroupUser dbGroups 1 "u1").2 1 "u1").2.user_groups.find?
        (fun r => r.id = 1) = some { groupG with user_id := ["u1"] ++ ["u1", "u1"] }
      ∧ (["u1"] ++ ["u1", "u1"]).count "u1" = (["u1"] : List String).count "u1" + 2
      ∧ (deleteGroupUser dbGroups 1 "u1").2.user_groups.find? (fun r => r.id = 1)
          = some { groupG with user_id := (["u1"] : List String).filter (fun x => ¬ x = "u1") }
      ∧ ((["u1"] : List String).filter (fun x => ¬ x = "u1")).count "u1" = 0) :=
  c10_group_membership dbGroups 1 "u1" groupG (by decide)


/-- One insert-or-ignore step preserves every existing tag row verbatim. -/
theorem mem_insertTagIgnore (db : DB) (nm : String) {t : TagRow}
    (ht : t ∈ db.tags) : t ∈ (insertTagIgnore db nm).tags := by
  unfold insertTagIgnore
  by_cases h : db.tags.any (fun x => x.name = nm) = true
  · rw [if_pos h]; exact ht
  · rw [if_neg h]; exact List.mem_append.2 (Or.inl ht)

/-- The whole bulk insert-or-ignore preserves every existing tag row. -/
theorem mem_insertTagsIgnore (db : DB) (names : List String) {t : TagRow}
    (ht : t ∈ db.tags) : t ∈ (insertTagsIgnore db names).tags := by
  induction names generalizing db with
  | nil => exact ht
  | cons n ns ih => exact ih (insertTagIgnore db n) (mem_insertTagIgnore db n ht)

/-- The user-tag CTE statement also preserves every existing tag row. -/
theorem mem_postUserTag_tags (db : DB) (uid tag : String) {t : TagRow}
    (ht : t ∈ db.tags) : t ∈ (postUserTagRoute db uid tag).2.tags := by
  cases hf : db.tags.find? (fun x => x.name = tag) with
  | some t2 =>
    simp only [postUserTagRoute, hf]
    by_cases h1 : db.users_pinned_tags.any (fun q => q.1 = uid && q.2 = t2.id) = true
    · rw [if_pos h1]; exact ht
    · rw [if_neg h1]
      by_cases h2 : db.users.any (fun u => u.id = uid) = true
      · rw [if_pos h2]; exact ht
      · rw [if_neg h2]; exact ht
  | none =>
    simp only [postUserTagRoute, hf]
    by_cases h2 : db.users.any (fun u => u.id = uid) = true
    · rw [if_pos h2]; exact List.mem_append.2 (Or.inl ht)
    · rw [if_neg h2]; exact ht

/-- Claim C7: the tag-upsert step is insert-or-ignore, not insert-or-update:
every Tag row existing before a normalizer call — the bulk
`ON CONFLICT (name) DO NOTHING` insert of POST /ideas or the CTE insert of
POST /user/:user_id/:tag — is still present verbatim afterwards (same id and
vote counters), and an upsert of an already present name leaves the table
completely unchanged. -/
theorem c7_upsert_preserves_existing_tags :
    (∀ (db : DB) (names : List String) (t : TagRow),
        t ∈ db.tags → t ∈ (insertTagsIgnore db names).tags)
    ∧ (∀ (db : DB) (nm : String),
        db.tags.any (fun t => t.name = nm) = true → insertTagIgnore db nm = db)
    ∧ (∀ (db : DB) (uid tag : String) (t : TagRow),
        t ∈ db.tags → t ∈ (postUserTagRoute db uid tag).2.tags) := by
  refine ⟨fun db names t ht => mem_insertTagsIgnore db names ht,
    fun db nm h => ?_,
    fun db uid tag t ht => mem_postUserTag_tags db uid tag ht⟩
  unfold insertTagIgnore
  rw [if_pos h]

/-- A tag row with nonzero counters, for the upsert-preservation witness. -/
def tagA : TagRow := { id := 5, name := "a", upvotes := 7, downvotes := 3 }

/-- A user to link from, in several witnesses. -/
def userU : UserRow := { id := "u1", name := "n", email := "e", role := "r", image_url := "i" }

/-- A store holding userU and the voted tag tagA. -/
def dbTagA : DB :=
  { users := [userU], tags := [tagA], users_pinned_tags := [], user_groups := [],
    ideas := [], ideas_tags := [], feedbacks := [], ideas_feedbacks := [],
    tagSeq := 6, ideaSeq := 1 }

/-- Witness for C7: re-upserting the name of the voted tag preserves its row
(counters and id) on the concrete store dbTagA. -/
theorem c7_witness :
    (tagA ∈ (insertTagsIgnore dbTagA ["a", "b"]).tags)
    ∧ insertTagIgnore dbTagA "a" = dbTagA
    ∧ (tagA ∈ (postUserTagRoute dbTagA "u1" "a").2.tags) :=
  ⟨c7_upsert_preserves_existing_tags.1 dbTagA ["a", "b"] tagA (by decide),
   c7_upsert_preserves_existing_tags.2.1 dbTagA "a" (by decide),
   c7_upsert_preserves_existing_tags.2.2 dbTagA "u1" "a" tagA (by decide)⟩

/-- A store holding only the user userU. -/
def dbUsersOnly : DB :=
  { users := [userU], tags := [], users_pinned_tags := [], user_groups := [],
    ideas := [], ideas_tags := [], feedbacks := [], ideas_feedbacks := [],
    tagSeq := 1, ideaSeq := 1 }

/-- Counterexample to claim C1 as stated: on a store with user u1 and no
tags, linking tag t to u1 twice makes the second POST /user/:user_id/:tag
respond 404 — an error — rather than succeed as a no-op. -/
theorem c1_counterexample :
    (postUserTagRoute (postUserTagRoute dbUsersOnly "u1" "t").2 "u1" "t").1 = 404
    ∧ ((postUserTagRoute (postUserTagRoute dbUsersOnly "u1" "t").2 "u1" "t").1 = 200
        → False) := by
  exact ⟨by decide, by decide⟩

/-- Claim C1 as amended: re-linking an existing (entity, tag-name) pair never
creates a duplicate Tag row or junction row — the store is left exactly as
the first call left it — but the second call does NOT succeed as a no-op:
the user-tag route answers 404 (its NOT EXISTS guard returns zero rows and
the handler throws), and the idea-tag route hits the composite primary key
and fails with 500. -/
theorem c1_relink_errors_without_duplicates :
    (∀ (db db1 : DB) (uid tag : String),
        postUserTagRoute db uid tag = (200, db1) →
        postUserTagRoute db1 uid tag = (404, db1))
    ∧ (∀ (db : DB) (id : Nat) (tag : String) (t : TagRow),
        db.tags.find? (fun r => r.name = tag) = some t →
        db.ideas_tags.any (fun q => q.1 = id && q.2 = t.id) = true →
        postIdeaTagRoute db id tag = (500, db)) := by
  constructor
  · intro db db1 uid tag h
    cases hf : db.tags.find? (fun t => t.name = tag) with
    | some t =>
      simp only [postUserTagRoute, hf] at h
      by_cases h1 : db.users_pinned_tags.any (fun q => q.1 = uid && q.2 = t.id) = true
      · rw [if_pos h1] at h
        exact absurd (congrArg Prod.fst h) (by simp)
      · rw [if_neg h1] at h
        by_cases h2 : db.users.any (fun u => u.id = uid) = true
        · rw [if_pos h2] at h
          have hdb : db1 = { db with
              users_pinned_tags := db.users_pinned_tags ++ [(uid, t.id)] } := by
            have h3 := congrArg Prod.snd h
            simpa using h3.symm
          subst hdb
          have hf2 : ({ db with users_pinned_tags := db.users_pinned_tags ++ [(uid, t.id)] }
              : DB).tags.find? (fun t => t.name = tag) = some t := hf
          simp only [postUserTagRoute, hf2]
          rw [if_pos (by simp [List.any_append])]
        · rw [if_neg h2] at h
          exact absurd (congrArg Prod.fst h) (by simp)
    | none =>
      simp only [postUserTagRoute, hf] at h
      by_cases h2 : db.users.any (fun u => u.id = uid) = true
      · rw [if_pos h2] at h
        have hdb : db1 = { db with
            tags := db.tags ++ [{ id := db.tagSeq, name := tag, upvotes := 0, downvotes := 0 }],
            tagSeq := db.tagSeq + 1,
            users_pinned_tags := db.users_pinned_tags ++ [(uid, db.tagSeq)] } := by
          have h3 := congrArg Prod.snd h
          simpa using h3.symm
        subst hdb
        have hf2 : ({ db with
            tags := db.tags ++ [{ id := db.tagSeq, name := tag, upvotes := 0, downvotes := 0 }],
            tagSeq := db.tagSeq + 1,
            users_pinned_tags := db.users_pinned_tags ++ [(uid, db.tagSeq)] } : DB).tags.find?
              (fun t => t.name = tag)
            = some { id := db.tagSeq, name := tag, upvotes := 0, downvotes := 0 } := by
          rw [show ({ db with
              tags := db.tags ++ [{ id := db.tagSeq, name := tag, upvotes := 0, downvotes := 0 }],
              tagSeq := db.tagSeq + 1,
              users_pinned_tags := db.users_pinned_tags ++ [(uid, db.tagSeq)] } : DB).tags
              = db.tags ++ [{ id := db.tagSeq, name := tag, upvotes := 0, downvotes := 0 }] from rfl,
            List.find?_append, hf]
          simp
        simp only [postUserTagRoute, hf2]
        rw [if_pos (by simp [List.any_append])]
      · rw [if_neg h2] at h
        exact absurd (congrArg Prod.fst h) (by simp)
  · intro db id tag t hf hdup
    simp only [postIdeaTagRoute, hf]
    rw [if_pos hdup]

/-- The store dbUsersOnly after a first successful POST /user/u1/t: one new
tag row and one junction row. -/
def dbUsersLinked : DB :=
  { users := [userU], tags := [{ id := 1, name := "t", upvotes := 0, downvotes := 0 }],
    users_pinned_tags := [("u1", 1)], user_groups := [],
    ideas := [], ideas_tags := [], feedbacks := [], ideas_feedbacks := [],
    tagSeq := 2, ideaSeq := 1 }

/-- A store with an idea already linked to tag t, for the idea-side relink. -/
def dbIdeaLinked : DB :=
  { users := [userU], tags := [{ id := 1, name := "t", upvotes := 0, downvotes := 0 }],
    users_pinned_tags := [], user_groups := [],
    ideas := [ideaV], ideas_tags := [(1, 1)], feedbacks := [], ideas_feedbacks := [],
    tagSeq := 2, ideaSeq := 2 }

/-- Witness for the amended C1: the concrete first call succeeds, the second
call returns 404 leaving the store untouched, and relinking the already
linked idea pair returns 500. -/
theorem c1_witness :
    postUserTagRoute dbUsersOnly "u1" "t" = (200, dbUsersLinked)
    ∧ postUserTagRoute dbUsersLinked "u1" "t" = (404, dbUsersLinked)
    ∧ postIdeaTagRoute dbIdeaLinked 1 "t" = (500, dbIdeaLinked) :=
  ⟨by decide,
   c1_relink_errors_without_duplicates.1 dbUsersOnly dbUsersLinked "u1" "t" (by decide),
   c1_relink_errors_without_duplicates.2 dbIdeaLinked 1 "t"
     { id := 1, name := "t", upvotes := 0, downvotes := 0 } (by decide) (by decide)⟩

/-- Claim C8: a request whose JSON body fails schema validation is rejected
by the zValidator middleware with a 400 response before the handler runs, so
the entity store and the object store are both left unchanged (POST /ideas
and POST /feedbacks). -/
theorem c8_validation_rejects_before_store :
    (∀ (b : IdeasReqBody) (st : ServerState),
        ideasBodyValid b = false → postIdeasRoute b st = (400, st))
    ∧ (∀ (b : FeedbackReqBody) (st : ServerState),
        feedbackBodyValid b = false → postFeedbacksRoute b st = (400, st)) := by
  constructor
  · intro b st h
    simp [postIdeasRoute, runRoute, h]
  · intro b st h
    simp [postFeedbacksRoute, runRoute, h]

/-- A POST /ideas body with every key absent: validation fails. -/
def emptyIdeasBody : IdeasReqBody :=
  { id := none, title := none, content := none, user_id := none, files_url := none,
    access := none, upvotes := none, downvotes := none, tags := none }

/-- A POST /feedbacks body with every key absent: validation fails. -/
def emptyFeedbackBody : FeedbackReqBody :=
  { id := none, idea_id := none, user_id := none, content := none, files_url := none,
    feedback_links := none, user_tag := none, upvotes := none, downvotes := none }

/-- A concrete server state: the users-only store plus an empty bucket. -/
def st0 : ServerState := { db := dbUsersOnly, s3 := { objects := [] } }

/-- Witness for C8: both invalid bodies bounce off st0 with 400 and the state
unchanged. -/
theorem c8_witness :
    postIdeasRoute emptyIdeasBody st0 = (400, st0)
    ∧ postFeedbacksRoute emptyFeedbackBody st0 = (400, st0) :=
  ⟨c8_validation_rejects_before_store.1 emptyIdeasBody st0 (by decide),
   c8_validation_rejects_before_store.2 emptyFeedbackBody st0 (by decide)⟩

/-- An Array object has no `items` property, so the member access yields
undefined. -/
theorem jsGetProp_items (l : List (Option String)) :
    jsGetProp (jsArrayProps l) (JsKey.named "items") = JsVal.vundef := by
  unfold jsGetProp
  have hnone : (jsArrayProps l).find? (fun p => p.1 = JsKey.named "items") = none := by
    rw [List.find?_eq_none]
    intro x hx
    unfold jsArrayProps at hx
    rcases List.mem_append.1 hx with h | h
    · rcases List.mem_map.1 h with ⟨p, hp, rfl⟩
      simp
    · rcases List.mem_singleton.1 h with rfl
      simp
  rw [hnone]

/-- Claim C9: GET /users/:id for an existing user always reports pinned_tags
as the empty array, no matter how many tags the user has pinned, because the
transform reads the nonexistent `.items` property of the aggregated array
(yielding undefined) and the nullish-coalescing fallback substitutes `[]`. -/
theorem c9_pinned_tags_always_empty :
    ∀ (db : DB) (uid : String) (tu : TransformedUser),
      (getUserByIdRoute db uid).2 = some tu → tu.pinned_tags = JsVal.varr [] := by
  intro db uid tu h
  cases hm : (db.users.filter (fun u => u.id = uid)).map (userAggOf db) with
  | nil =>
    simp only [getUserByIdRoute, hm] at h
    cases h
  | cons r rest =>
    simp only [getUserByIdRoute, hm] at h
    have htu : tu = transformUser r := (Option.some.inj h).symm
    subst htu
    simp [transformUser, jsGetProp_items, jsNullish]

/-- A store in which userU has pinned two tags. -/
def dbPinned : DB :=
  { users := [userU],
    tags := [{ id := 1, name := "a", upvotes := 0, downvotes := 0 },
             { id := 2, name := "b", upvotes := 0, downvotes := 0 }],
    users_pinned_tags := [("u1", 1), ("u1", 2)], user_groups := [],
    ideas := [], ideas_tags := [], feedbacks := [], ideas_feedbacks := [],
    tagSeq := 3, ideaSeq := 1 }

/-- The response GET /users/u1 produces on dbPinned. -/
def tuPinnedOut : TransformedUser :=
  { id := "u1", name := "n", email := "e", role := "r", image_url := "i",
    pinned_tags := JsVal.varr [] }

/-- Witness for C9: on a user with two pinned tags the route still reports
the empty array. -/
theorem c9_witness :
    (getUserByIdRoute dbPinned "u1").2 = some tuPinnedOut
    ∧ tuPinnedOut.pinned_tags = JsVal.varr [] :=
  ⟨by decide, c9_pinned_tags_always_empty dbPinned "u1" tuPinnedOut (by decide)⟩

/-- A completely empty store. -/
def dbEmpty : DB :=
  { users := [], tags := [], users_pinned_tags := [], user_groups := [],
    ideas := [], ideas_tags := [], feedbacks := [], ideas_feedbacks := [],
    tagSeq := 1, ideaSeq := 1 }

/-- Counterexample to claim C3 as stated: two of the claim's own cited
operations reference an absent row and still answer 200 — the feedback
up-vote issues its UPDATE (matching nothing) and responds 200 with no
row-count check, and GET /ideas/:id serialises rows[0] of an empty result
with status 200. -/
theorem c3_counterexample :
    dbEmpty.feedbacks = [] ∧ (postFeedbackUp dbEmpty 1).1 = 200
    ∧ dbEmpty.ideas = [] ∧ (getIdeaById dbEmpty 1).1 = 200 := by
  exact ⟨rfl, rfl, rfl, rfl⟩

/-- Claim C3 as amended: operations that inspect the returned row count
answer 404 on an absent row (GET /tags/:name and the tag vote endpoints),
but POST /feedbacks/up/:id and GET /ideas/:id answer 200 unconditionally,
row or no row. -/
theorem c3_absent_rows_mixed_statuses :
    (∀ (db : DB) (nm : String),
        (∀ t ∈ db.tags, t.name ≠ nm) →
        ((getTagByName db nm).1 = 404 ∧ (postTagUp db nm).1 = 404))
    ∧ (∀ (db : DB) (id : Nat), (postFeedbackUp db id).1 = 200)
    ∧ (∀ (db : DB) (id : Nat), (getIdeaById db id).1 = 200) := by
  refine ⟨?_, fun db id => rfl, fun db id => rfl⟩
  intro db nm h
  constructor
  · have hfil : db.tags.filter (fun t => t.name = nm) = [] :=
      List.filter_eq_nil_iff.2 (fun a ha => by simpa using h a ha)
    simp only [getTagByName, hfil]
  · cases hb : db.tags.any (fun t => t.name = nm) with
    | false =>
      simp only [postTagUp, hb]
      decide
    | true =>
      exfalso
      obtain ⟨x, hx, hpx⟩ := List.any_eq_true.1 hb
      exact h x hx (by simpa using hpx)

/-- Witness for the amended C3: concrete absent-row calls on dbEmpty. -/
theorem c3_witness :
    ((getTagByName dbEmpty "x").1 = 404 ∧ (postTagUp dbEmpty "x").1 = 404)
    ∧ (postFeedbackUp dbEmpty 1).1 = 200 :=
  ⟨c3_absent_rows_mixed_statuses.1 dbEmpty "x" (by decide),
   c3_absent_rows_mixed_statuses.2.1 dbEmpty 1⟩

/-- Counterexample to claim C4 as stated: the string no_such_column is not a
column of the ideas table (it lies outside every allow-list of sortable
columns), yet the GET /ideas query validator accepts it as sort_by and the
handler builds a nonempty ORDER BY fragment from it — nothing rejects it. -/
theorem c4_counterexample :
    ideasQueryValid (some "no_such_column") none none = true
    ∧ ("no_such_column" ∈ ideasTableColumns → False)
    ∧ ideasSortBySql (some "no_such_column") ≠ [] := by
  exact ⟨rfl, by decide, by decide⟩

/-- Claim C4 as amended: no allow-list restricts the sort key — validation
accepts every string — but the caller-supplied value reaches the query only
as a bound parameter of a fixed SQL text (postgres tagged template), in both
GET /ideas and GET /groups, so it is never spliced into the SQL as a column
name. -/
theorem c4_sort_key_unrestricted_but_parameterised :
    ∀ s : String,
      ideasQueryValid (some s) none none = true
      ∧ ideasSortBySql (some s) = [SqlPiece.raw "ORDER BY i.", SqlPiece.param s]
      ∧ groupsQuerySql (some s)
          = [SqlPiece.raw "SELECT * FROM user_groups ", SqlPiece.param ("ORDER BY " ++ s)] := by
  intro s
  exact ⟨rfl, rfl, rfl⟩

/-- An idea is linked to a tag of the given name: some junction row joins the
idea to some tag row bearing that name. -/
def linkedToTag (db : DB) (i : IdeaRow) (f : String) : Prop :=
  ∃ p ∈ db.ideas_tags, p.1 = i.id ∧ ∃ t ∈ db.tags, t.id = p.2 ∧ t.name = f

/-- The tag-filter side of the listing claim: no filter means no restriction,
a filter keeps exactly the ideas linked to a tag of that name. -/
def claimTagCond (db : DB) (filter : Option String) (i : IdeaRow) : Prop :=
  match filter with
  | none => True
  | some f => linkedToTag db i f

/-- The access side of claim C5, in the claim's words: when the parameter
matches the private:*/group:* shape, the row's access must equal that exact
value or equal public; any other (or absent) parameter restricts nothing. -/
def claimAccessCond (access : Option String) (i : IdeaRow) : Prop :=
  match access with
  | none => True
  | some a => accessShape a = true → (i.access = a ∨ i.access = "public")

/-- The WHERE condition the handler builds agrees with the claim's access
condition. -/
theorem rowPassesAccess_iff (access : Option String) (i : IdeaRow) :
    rowPassesAccess access i = true ↔ claimAccessCond access i := by
  cases access with
  | none => simp [rowPassesAccess, claimAccessCond]
  | some a =>
    by_cases h : accessShape a = true
    · simp [rowPassesAccess, claimAccessCond, h]
    · simp [rowPassesAccess, claimAccessCond, h]

/-- The left join always yields at least one row per idea. -/
theorem ideaJoinTags_ne_nil (db : DB) (i : IdeaRow) : ideaJoinTags db i ≠ [] := by
  unfold ideaJoinTags
  by_cases h : (db.ideas_tags.filter (fun p => p.1 = i.id)).isEmpty = true
  · rw [if_pos h]
    simp
  · rw [if_neg h]
    intro hmap
    rw [List.map_eq_nil_iff] at hmap
    rw [hmap] at h
    simp at h

/-- The WHERE clause factors: the access test is constant across one idea's
joined rows, so it either keeps the tag-filtered rows or empties the group. -/
theorem survivingRows_eq (db : DB) (filter access : Option String) (i : IdeaRow) :
    survivingRows db filter access i =
      if rowPassesAccess access i then (ideaJoinTags db i).filter (rowPassesFilter filter)
      else [] := by
  unfold survivingRows
  by_cases h : rowPassesAccess access i = true
  · rw [if_pos h]
    apply List.filter_congr
    intro t ht
    simp [h]
  · rw [if_neg h]
    have h2 : rowPassesAccess access i = false := by
      cases hx : rowPassesAccess access i
      · rfl
      · exact absurd hx h
    apply List.filter_eq_nil_iff.2
    intro a ha
    simp [h2]

/-- With no tag filter every joined row passes, so the group is the whole
left join. -/
theorem filter_rowPassesFilter_none (l : List (Option TagRow)) :
    l.filter (rowPassesFilter none) = l := by
  have h : l.filter (rowPassesFilter none) = l.filter (fun x => true) :=
    List.filter_congr (fun x hx => rfl)
  rw [h, List.filter_true]

/-- With a tag filter, an idea's group is nonempty exactly when the idea is
linked to a tag of that name (tags.id is a primary key, hence the Nodup
hypothesis). -/
theorem filter_tag_ne_nil_iff (db : DB) (f : String) (i : IdeaRow)
    (htags : (db.tags.map (fun t => t.id)).Nodup) :
    (ideaJoinTags db i).filter (rowPassesFilter (some f)) ≠ [] ↔ linkedToTag db i f := by
  constructor
  · intro hne
    obtain ⟨x, hx⟩ := List.exists_mem_of_ne_nil _ hne
    have hx1 := List.mem_filter.1 hx
    have hxm := hx1.1
    have hxp := hx1.2
    unfold ideaJoinTags at hxm
    by_cases hemp : (db.ideas_tags.filter (fun p => p.1 = i.id)).isEmpty = true
    · rw [if_pos hemp] at hxm
      rcases List.mem_singleton.1 hxm with rfl
      cases hxp
    · rw [if_neg hemp] at hxm
      obtain ⟨p, hp, hpx⟩ := List.mem_map.1 hxm
      have hpj := List.mem_filter.1 hp
      cases x with
      | none => cases hxp
      | some tg =>
        have hfind : db.tags.find? (fun t => t.id = p.2) = some tg := hpx
        have htg1 : tg ∈ db.tags := List.mem_of_find?_eq_some hfind
        have htg2 : tg.id = p.2 := by simpa using List.find?_some hfind
        have htg3 : tg.name = f := by simpa [rowPassesFilter] using hxp
        exact ⟨p, hpj.1, by simpa using hpj.2, tg, htg1, htg2, htg3⟩
  · rintro ⟨p, hp, hpid, t, ht, htid, htname⟩
    have hpj : p ∈ db.ideas_tags.filter (fun q => q.1 = i.id) :=
      List.mem_filter.2 ⟨hp, by simpa using hpid⟩
    have hemp : (db.ideas_tags.filter (fun q => q.1 = i.id)).isEmpty ≠ true :=
      fun hh => (List.ne_nil_of_mem hpj) (List.isEmpty_eq_true.1 hh)
    have hsome : ∃ t2, db.tags.find? (fun r => r.id = p.2) = some t2 := by
      have h1 : (db.tags.find? (fun r => r.id = p.2)).isSome = true :=
        List.find?_isSome.2 ⟨t, ht, by simpa using htid⟩
      exact Option.isSome_iff_exists.1 h1
    obtain ⟨t2, hfind⟩ := hsome
    have ht2m : t2 ∈ db.tags := List.mem_of_find?_eq_some hfind
    have ht2id : t2.id = p.2 := by simpa using List.find?_some hfind
    have ht2t : t2 = t := List.inj_on_of_nodup_map htags ht2m ht (by rw [ht2id, htid])
    have hxm : some t2 ∈ ideaJoinTags db i := by
      unfold ideaJoinTags
      rw [if_neg hemp]
      rw [← hfind]
      exact List.mem_map_of_mem _ hpj
    apply List.ne_nil_of_mem (a := some t2)
    apply List.mem_filter.2
    refine ⟨hxm, ?_⟩
    simp [rowPassesFilter, ht2t, htname]

/-- Claim C5: membership of an idea in the GET /ideas listing is exactly the
conjunction of the tag-filter condition and the claim's access condition —
when the access parameter matches private:*/group:* only rows whose access
equals it exactly or equals public appear, and any other or absent access
parameter filters nothing. The Nodup hypotheses state that ideas.id and
tags.id are primary keys. -/
theorem c5_access_filter :
    ∀ (db : DB) (filter access : Option String) (i : IdeaRow),
      i ∈ db.ideas →
      (db.ideas.map (fun r => r.id)).Nodup →
      (db.tags.map (fun r => r.id)).Nodup →
      ((∃ v ∈ getIdeasRows db filter access, v.id = i.id) ↔
        (claimTagCond db filter i ∧ claimAccessCond access i)) := by
  intro db filter access i hi hnodup htags
  constructor
  · rintro ⟨v, hv, hvid⟩
    obtain ⟨j, hj, hjv⟩ := List.mem_filterMap.1 hv
    by_cases hemp : (survivingRows db filter access j).isEmpty = true
    · simp only [hemp, if_true] at hjv
      cases hjv
    · simp only [hemp, if_false] at hjv
      have hvj : v = mkIdeaView j
          ((survivingRows db filter access j).map (fun t => t.map (fun tg => tg.name))) :=
        (Option.some.inj hjv).symm
      have hjid : j.id = i.id := by
        rw [hvj] at hvid
        exact hvid
      have hji : j = i := List.inj_on_of_nodup_map hnodup hj hi hjid
      subst hji
      have hne : survivingRows db filter access j ≠ [] :=
        fun hh => hemp (List.isEmpty_eq_true.2 hh)
      rw [survivingRows_eq] at hne
      by_cases hacc : rowPassesAccess access j = true
      · rw [if_pos hacc] at hne
        refine ⟨?_, (rowPassesAccess_iff access j).1 hacc⟩
        cases filter with
        | none => trivial
        | some f => exact (filter_tag_ne_nil_iff db f j htags).1 hne
      · rw [if_neg hacc] at hne
        exact absurd rfl hne
  · rintro ⟨htag, hacc⟩
    have haccb : rowPassesAccess access i = true := (rowPassesAccess_iff access i).2 hacc
    have hne : survivingRows db filter access i ≠ [] := by
      rw [survivingRows_eq, if_pos haccb]
      cases filter with
      | none =>
        rw [filter_rowPassesFilter_none]
        exact ideaJoinTags_ne_nil db i
      | some f => exact (filter_tag_ne_nil_iff db f i htags).2 htag
    have hemp : (survivingRows db filter access i).isEmpty ≠ true :=
      fun hh => hne (List.isEmpty_eq_true.1 hh)
    refine ⟨mkIdeaView i
        ((survivingRows db filter access i).map (fun t => t.map (fun tg => tg.name))), ?_, rfl⟩
    apply List.mem_filterMap.2
    refine ⟨i, hi, ?_⟩
    simp only [getIdeasRows]
    rw [if_neg hemp]

/-- An idea visible to private:42. -/
def ideaP42 : IdeaRow :=
  { id := 1, title := "a", content := "c", user_id := "u1",
    files_url := [], access := "private:42", upvotes := 0, downvotes := 0 }

/-- An idea visible only to private:99. -/
def ideaP99 : IdeaRow :=
  { id := 2, title := "b", content := "c", user_id := "u1",
    files_url := [], access := "private:99", upvotes := 0, downvotes := 0 }

/-- A public idea. -/
def ideaPub : IdeaRow :=
  { id := 3, title := "d", content := "c", user_id := "u1",
    files_url := [], access := "public", upvotes := 0, downvotes := 0 }

/-- A store holding the three ideas of the access-filter scenario. -/
def dbAccess : DB :=
  { users := [userU], tags := [], users_pinned_tags := [], user_groups := [],
    ideas := [ideaP42, ideaP99, ideaPub], ideas_tags := [], feedbacks := [],
    ideas_feedbacks := [], tagSeq := 1, ideaSeq := 4 }

/-- Witness for C5: listing with access private:42 keeps the private:42 idea,
and concretely the full listing holds exactly the private:42 and public rows,
excluding private:99. -/
theorem c5_witness :
    ideaP42 ∈ dbAccess.ideas
    ∧ ((∃ v ∈ getIdeasRows dbAccess none (some "private:42"), v.id = ideaP42.id)
        ↔ (claimTagCond dbAccess none ideaP42 ∧ claimAccessCond (some "private:42") ideaP42))
    ∧ (getIdeasRows dbAccess none (some "private:42")).map (fun v => v.id) = [1, 3] :=
  ⟨by decide,
   c5_access_filter dbAccess none (some "private:42") ideaP42 (by decide) (by decide) (by decide),
   by decide⟩
